import Mathlib

/-!
# Verification of the Jules automation loop (`scripts/jules-loop.py`)

A shallow embedding of the pure decision logic of the loop controller:
the HTTP outcome classifier, the retry/backoff executor, the quota
tracker, the prompt selector, the merge-outcome classification, the
poll-for-change-request phase, and the per-iteration state machine of
`run_loop`.  External effects (HTTP transport, wall-clock time, the
random draw, signal delivery, file I/O) appear as explicit inputs:
per-attempt response traces, a uniform draw `r`, per-checkpoint
shutdown-flag readings, and file contents.  `save_state` is modelled by
returning the updated state value; blocking sleeps are modelled by
recording the slept delays.  Python floats are modelled by exact
rationals.
-/

namespace JulesLoop

/-! ## Outcome classifier (`is_transient_error`, `is_auth_error`) -/

/-- Python `is_transient_error(code)`: `code in {0, 429, 500, 502, 503, 504}`. -/
def is_transient_error (code : Nat) : Bool :=
  code == 0 || code == 429 || code == 500 || code == 502 || code == 503 || code == 504

/-- Python `is_auth_error(code)`: `code in {401, 403}`. -/
def is_auth_error (code : Nat) : Bool :=
  code == 401 || code == 403

/-! ## Retry/backoff executor (`retry_with_backoff`) -/

/-- The observable outcome of one `retry_with_backoff` call: the returned
`(success, result)` pair, together with the list of delays passed to
`time.sleep` (in order) and the number of times the operation was invoked. -/
structure RetryOutcome where
  success : Bool
  result : String
  delays : List Nat
  invocations : Nat
deriving DecidableEq

/-- Loop body of `retry_with_backoff`.  The Python loop keeps a counter
`attempt` and stops re-invoking once `not retryable or attempt >= max_retries`
(checked after `attempt += 1`); `rem` is the structural encoding
`rem = max_retries - attempt - 1` of the number of re-invocations still
permitted, so the guard `attempt + 1 < max_retries` is exactly `0 < rem`.
The delay slept before the re-invocation is `base_delay * 3 ** (attempt - 1)`
for the incremented counter, i.e. `baseDelay * 3 ^ attempt` here. -/
def retryGo (op : Nat → Bool × Bool × String) (baseDelay : Nat) :
    (attempt : Nat) → (rem : Nat) → RetryOutcome
  | attempt, rem =>
    let r := op attempt
    if r.1 then
      { success := true, result := r.2.2, delays := [], invocations := 1 }
    else
      match rem with
      | 0 =>
        { success := false, result := r.2.2, delays := [], invocations := 1 }
      | rem' + 1 =>
        if r.2.1 = false then
          { success := false, result := r.2.2, delays := [], invocations := 1 }
        else
          let rest := retryGo op baseDelay (attempt + 1) rem'
          { rest with
              delays := baseDelay * 3 ^ attempt :: rest.delays,
              invocations := rest.invocations + 1 }

/-- Python `retry_with_backoff(operation, max_retries, base_delay)`, with the
operation given as its trace of per-invocation results
(`op k` = result of the `k`-th invocation, counting from 0). -/
def retry_with_backoff (op : Nat → Bool × Bool × String)
    (maxRetries baseDelay : Nat) : RetryOutcome :=
  retryGo op baseDelay 0 (maxRetries - 1)

/-- The geometric backoff schedule `base * 3 ^ a, base * 3 ^ (a+1), ...`
(`k` terms), as produced by consecutive failed attempts starting at
attempt counter `a`. -/
def geomDelays (b : Nat) : Nat → Nat → List Nat
  | _, 0 => []
  | a, k + 1 => b * 3 ^ a :: geomDelays b (a + 1) k

theorem geomDelays_eq_map (b : Nat) :
    ∀ k a, geomDelays b a k = (List.range k).map (fun i => b * 3 ^ (a + i)) := by
  intro k
  induction k with
  | zero => intro a; simp [geomDelays]
  | succ k ih =>
    intro a
    rw [List.range_succ_eq_map, List.map_cons, List.map_map]
    show b * 3 ^ a :: geomDelays b (a + 1) k = _
    rw [ih (a + 1)]
    refine congrArg₂ List.cons (by simp) ?_
    refine List.map_congr_left fun i _ => ?_
    have harr : a + 1 + i = a + (i + 1) := by omega
    simp [Function.comp, harr]

theorem retryGo_first_success (op : Nat → Bool × Bool × String) (b : Nat) :
    ∀ k a rem, k ≤ rem →
      (∀ i, i < k → (op (a + i)).1 = false ∧ (op (a + i)).2.1 = true) →
      (op (a + k)).1 = true →
      retryGo op b a rem =
        { success := true, result := (op (a + k)).2.2,
          delays := geomDelays b a k, invocations := k + 1 } := by
  intro k
  induction k with
  | zero =>
    intro a rem _ _ hs
    simp only [Nat.add_zero] at hs
    rw [retryGo.eq_def]
    simp [hs, geomDelays]
  | succ k ih =>
    intro a rem hk hfail hs
    obtain ⟨rem', rfl⟩ : ∃ rem', rem = rem' + 1 := ⟨rem - 1, by omega⟩
    have h0 := hfail 0 (Nat.succ_pos k)
    simp only [Nat.add_zero] at h0
    rw [retryGo.eq_def]
    simp only [h0.1, Bool.false_eq_true, if_false, h0.2, Bool.true_eq_false]
    rw [ih (a + 1) rem' (by omega)
      (fun i hi => by
        have h := hfail (i + 1) (by omega)
        have harr : a + 1 + i = a + (i + 1) := by omega
        rw [harr]; exact h)
      (by
        have harr : a + 1 + k = a + (k + 1) := by omega
        rw [harr]; exact hs)]
    have harr : a + 1 + k = a + (k + 1) := by omega
    simp [geomDelays, harr]

theorem retryGo_shape (op : Nat → Bool × Bool × String) (b : Nat) :
    ∀ rem a, ∃ k, k ≤ rem ∧
      (retryGo op b a rem).delays = geomDelays b a k ∧
      (retryGo op b a rem).invocations = k + 1 := by
  intro rem
  induction rem with
  | zero =>
    intro a
    refine ⟨0, Nat.le_refl 0, ?_⟩
    rw [retryGo.eq_def]
    by_cases h : (op a).1 <;> simp [h, geomDelays]
  | succ rem ih =>
    intro a
    rw [retryGo.eq_def]
    by_cases h1 : (op a).1
    · exact ⟨0, by omega, by simp [h1, geomDelays]⟩
    · by_cases h2 : (op a).2.1 = false
      · exact ⟨0, by omega, by simp [h1, h2, geomDelays]⟩
      · obtain ⟨k, hk, hd, hi⟩ := ih (a + 1)
        exact ⟨k + 1, by omega, by simp [h1, h2, hd, hi, geomDelays]⟩

/-- C1: `retry_with_backoff` returns the `(success, result)` of the first
successful invocation immediately (no further sleeps or invocations); a
non-retryable failure on the first invocation returns failure with that
result label after exactly one invocation and no sleep; in general the
operation is invoked at most `max_retries` times with the sleeps before the
re-invocations being exactly `base_delay * 3 ^ 0, base_delay * 3 ^ 1, ...`;
and when the first `k` invocations fail retryably and invocation `k`
(`k < max_retries`) succeeds, the outcome is success with that invocation's
label after delays `base * 3 ^ 0, ..., base * 3 ^ (k-1)` (so for `base = 5`
and success on the 3rd attempt the delays are 5s then 15s). -/
theorem C1_retry_with_backoff_spec (op : Nat → Bool × Bool × String)
    (m b : Nat) (hm : 1 ≤ m) :
    ((op 0).1 = true →
      retry_with_backoff op m b =
        { success := true, result := (op 0).2.2, delays := [], invocations := 1 }) ∧
    ((op 0).1 = false → (op 0).2.1 = false →
      retry_with_backoff op m b =
        { success := false, result := (op 0).2.2, delays := [], invocations := 1 }) ∧
    (∃ k, (retry_with_backoff op m b).delays = (List.range k).map (fun i => b * 3 ^ i) ∧
      (retry_with_backoff op m b).invocations = k + 1 ∧
      (retry_with_backoff op m b).invocations ≤ m) ∧
    (∀ k, k < m → (∀ i, i < k → (op i).1 = false ∧ (op i).2.1 = true) →
      (op k).1 = true →
      retry_with_backoff op m b =
        { success := true, result := (op k).2.2,
          delays := (List.range k).map (fun i => b * 3 ^ i),
          invocations := k + 1 }) := by
  refine ⟨?_, ?_, ?_, ?_⟩
  · intro hs
    rw [retry_with_backoff, retryGo.eq_def]
    simp [hs]
  · intro hf hr
    rw [retry_with_backoff, retryGo.eq_def]
    cases h : m - 1 <;> simp [hf, hr, h]
  · obtain ⟨k, hk, hd, hi⟩ := retryGo_shape op b (m - 1) 0
    refine ⟨k, ?_, ?_, ?_⟩
    · rw [retry_with_backoff, hd, geomDelays_eq_map]
      simp
    · rw [retry_with_backoff, hi]
    · rw [retry_with_backoff, hi]
      omega
  · intro k hkm hfail hs
    have h := retryGo_first_success op b k 0 (m - 1) (by omega)
      (fun i hi => by simpa using hfail i hi)
      (by simpa using hs)
    rw [retry_with_backoff, h, geomDelays_eq_map]
    simp

/-- A sample operation trace: two retryable transient failures followed by
a success, as in the spec's worked example. -/
def demoOp : Nat → Bool × Bool × String :=
  fun i => if i < 2 then (false, true, "retryable") else (true, false, "created")

/-- Witness for C1 at `max_retries = 3`, `base_delay = 5`: the executor
succeeds on the 3rd invocation having slept 5s then 15s. -/
theorem C1_retry_with_backoff_spec_witness :
    retry_with_backoff demoOp 3 5 =
      { success := true, result := "created", delays := [5, 15], invocations := 3 } := by
  have h := (C1_retry_with_backoff_spec demoOp 3 5 (by decide)).2.2.2 2 (by decide)
    (fun i hi => by
      have h2 : i < 2 := hi
      constructor <;> simp [demoOp, h2])
    (by simp [demoOp])
  rw [h]
  decide

/-! ## Persisted loop state (`state.json`) -/

/-- The `current_agent` object of the persisted state, with the six fields
the driver writes.  A missing key in the stored dict is modelled by the
field's default. -/
structure Agent where
  id : String := ""
  name : String := ""
  prompt : String := ""
  status : String := ""
  start_time : String := ""
  retry_count : Nat := 0
deriving DecidableEq

/-- A partial update dict for `current_agent`: `some v` means the key is
present in the update with value `v`, `none` means the key is absent. -/
structure AgentUpdate where
  id : Option String := none
  name : Option String := none
  prompt : Option String := none
  status : Option String := none
  start_time : Option String := none
  retry_count : Option Nat := none

/-- Python's `current.update(updates)` on the fixed key set: each key
present in the update replaces the stored value, absent keys are kept. -/
def Agent.applyUpdate (a : Agent) (u : AgentUpdate) : Agent :=
  { id := u.id.getD a.id,
    name := u.name.getD a.name,
    prompt := u.prompt.getD a.prompt,
    status := u.status.getD a.status,
    start_time := u.start_time.getD a.start_time,
    retry_count := u.retry_count.getD a.retry_count }

/-- The persisted loop state (one JSON object on disk).  A missing key is
modelled by the field's default (Python reads use `state.get(...)`, which
yields a falsy value for missing keys). -/
structure LoopState where
  paused : Bool := false
  pause_reason : String := ""
  quota_used : Nat := 0
  quota_reset_date : Option String := none
  current_agent : Option Agent := none
deriving DecidableEq

/-- Python `update_current_agent(state, updates)`: read `state.get("current_agent")
or {}`, apply the update dict, store it back and persist.  Persistence
(`save_state`) is modelled by the returned state value. -/
def update_current_agent (s : LoopState) (u : AgentUpdate) : LoopState :=
  { s with current_agent := some ((s.current_agent.getD {}).applyUpdate u) }

/-- Python `load_state()`: missing file or malformed JSON yields the empty state.
The filesystem is modelled by the optional file content and `json.loads`
by the `parse` function (`none` = `JSONDecodeError`); the empty dict `{}`
is the all-defaults record. -/
def load_state (parse : String → Option LoopState) (file : Option String) : LoopState :=
  match file with
  | none => {}
  | some content =>
    match parse content with
    | some st => st
    | none => {}

/-! ## Quota tracker (`init_quota`, `check_quota`, `increment_quota`) -/

/-- Python `init_quota(state, config)`: with no daily limit it returns `(0, None)`
without touching the state; with a limit it resets the persisted count to 0
and stamps today's date when the stored `quota_reset_date` differs from
today, and otherwise returns the persisted count. -/
def init_quota (state : LoopState) (limit : Option Nat) (today : String) :
    (Nat × Option String) × LoopState :=
  match limit with
  | none => ((0, none), state)
  | some _ =>
    if state.quota_reset_date ≠ some today then
      ((0, some today),
        { state with quota_used := 0, quota_reset_date := some today })
    else
      ((state.quota_used, some today), state)

/-- Python `check_quota(quota_used, config)`: true iff the limit is unset or the
count is below it. -/
def check_quota (quota_used : Nat) (limit : Option Nat) : Bool :=
  match limit with
  | none => true
  | some l => if quota_used ≥ l then false else true

/-- Python `increment_quota(state, quota_used, config)`: with no limit configured
the count is returned unchanged and nothing is persisted; with a limit the
incremented count is returned and persisted. -/
def increment_quota (state : LoopState) (quota_used : Nat) (limit : Option Nat) :
    Nat × LoopState :=
  match limit with
  | none => (quota_used, state)
  | some _ => (quota_used + 1, { state with quota_used := quota_used + 1 })

/-- C9: updating the current agent changes exactly the keys present in the
update dict, leaves every other `current_agent` field at its stored value,
and leaves every other top-level state field unchanged. -/
theorem C9_update_current_agent_frame (s : LoopState) (a : Agent) (u : AgentUpdate)
    (h : s.current_agent = some a) :
    (update_current_agent s u).paused = s.paused ∧
    (update_current_agent s u).pause_reason = s.pause_reason ∧
    (update_current_agent s u).quota_used = s.quota_used ∧
    (update_current_agent s u).quota_reset_date = s.quota_reset_date ∧
    (update_current_agent s u).current_agent = some
      { id := u.id.getD a.id,
        name := u.name.getD a.name,
        prompt := u.prompt.getD a.prompt,
        status := u.status.getD a.status,
        start_time := u.start_time.getD a.start_time,
        retry_count := u.retry_count.getD a.retry_count } := by
  simp [update_current_agent, Agent.applyUpdate, h]

/-- A populated agent record used to exercise the frame theorem. -/
def demoAgent : Agent :=
  { id := "a1", name := "sessions/a1", prompt := "p", status := "running",
    start_time := "2026-10-12T00:00:00Z", retry_count := 2 }

/-- A populated state used to exercise the frame theorem. -/
def demoState : LoopState :=
  { paused := false, pause_reason := "", quota_used := 3,
    quota_reset_date := some "2026-10-12", current_agent := some demoAgent }

/-- Witness for C9: a `status`-only update rewrites exactly `status`. -/
theorem C9_update_current_agent_frame_witness :
    (update_current_agent demoState { status := some "merged" }).current_agent =
      some { demoAgent with status := "merged" } ∧
    (update_current_agent demoState { status := some "merged" }).quota_used = 3 := by
  have h := C9_update_current_agent_frame demoState demoAgent
    { status := some "merged" } rfl
  exact ⟨by rw [h.2.2.2.2]; decide, by rw [h.2.2.1]; decide⟩

/-- C10: loading persisted state yields the empty state both when the state
file does not exist and when its content fails to parse as JSON; a corrupt
file is treated as empty (the function is total: no exception escapes). -/
theorem C10_load_state_empty_on_missing_or_corrupt
    (parse : String → Option LoopState) :
    (load_state parse none = {}) ∧
    (∀ content, parse content = none → load_state parse (some content) = {}) ∧
    (∀ content st, parse content = some st → load_state parse (some content) = st) := by
  refine ⟨rfl, ?_, ?_⟩
  · intro content h
    simp [load_state, h]
  · intro content st h
    simp [load_state, h]

/-- A parse function on which every content is malformed. -/
def demoParse : String → Option LoopState := fun _ => none

/-- Witness for C10 on a concrete corrupt content. -/
theorem C10_load_state_empty_on_missing_or_corrupt_witness :
    load_state demoParse (some "corrupt ]] not json") = {} :=
  (C10_load_state_empty_on_missing_or_corrupt demoParse).2.1 "corrupt ]] not json" rfl

/-- C7 counterexample: with no daily limit configured (`QUOTA_DAILY_LIMIT`
unset), `increment_quota` returns the count unchanged rather than
`quota_used + 1`, refuting the claim as stated for every state and count. -/
theorem C7_counterexample_increment_no_limit :
    ¬ ((increment_quota {} 0 none).1 = 0 + 1) := by decide

/-- C7 (amended): with a limit configured, `increment_quota` returns
`quota_used + 1` and persists the new count immediately; with no limit it
returns the count unchanged and does not touch the state.  `check_quota` is
true iff the limit is unset or `quota_used < limit`.  With a limit
configured, `init_quota` on a new UTC day (stored `quota_reset_date`
differing from today) resets the persisted count to 0 regardless of its
prior value and stamps today's date, and otherwise returns the persisted
count; with no limit it returns `(0, None)` without touching the state. -/
theorem C7_quota_tracker (st : LoopState) (q l : Nat) (today : String) :
    (increment_quota st q (some l) = (q + 1, { st with quota_used := q + 1 })) ∧
    (increment_quota st q none = (q, st)) ∧
    (check_quota q none = true) ∧
    ((check_quota q (some l) = true) ↔ q < l) ∧
    (st.quota_reset_date ≠ some today →
      init_quota st (some l) today =
        ((0, some today), { st with quota_used := 0, quota_reset_date := some today })) ∧
    (st.quota_reset_date = some today →
      init_quota st (some l) today = ((st.quota_used, some today), st)) ∧
    (init_quota st none today = ((0, none), st)) := by
  refine ⟨rfl, rfl, rfl, ?_, ?_, ?_, rfl⟩
  · by_cases h : q ≥ l
    · simp only [check_quota, if_pos h]
      simp
      omega
    · simp only [check_quota, if_neg h]
      simp
      omega
  · intro h
    simp [init_quota, h]
  · intro h
    simp [init_quota, h]

/-- Witness for C7: limit 3, three used sessions leave `check_quota` false;
a stale reset date resets the persisted count from 7 to 0. -/
theorem C7_quota_tracker_witness :
    (increment_quota {} 2 (some 3)).1 = 3 ∧
    check_quota 3 (some 3) = false ∧
    (init_quota { quota_used := 7, quota_reset_date := some "2026-10-11" }
      (some 3) "2026-10-12").2.quota_used = 0 := by
  refine ⟨?_, ?_, ?_⟩
  · rw [(C7_quota_tracker {} 2 3 "2026-10-12").1]
  · have hc := (C7_quota_tracker {} 3 3 "2026-10-12").2.2.2.1
    simp only [Nat.lt_irrefl, iff_false] at hc
    exact Bool.eq_false_iff.mpr hc
  · have h3 := (C7_quota_tracker
      { quota_used := 7, quota_reset_date := some "2026-10-11" } 3 3
      "2026-10-12").2.2.2.2.1 (by decide)
    rw [h3]

/-! ## Prompt selector (`validate_prompts`, `choose_prompt`)

Python floats are modelled by exact rationals.  The structural checks of
`validate_prompts` (each entry is a dict with a `text` and a numeric
`probability` field) hold by construction in the typed model; the numeric
checks are the ones embedded below. -/

/-- One entry of the weighted prompt list. -/
structure PromptEntry where
  text : String
  probability : ℚ
deriving DecidableEq

/-- Python `sum(float(prompt["probability"]) for prompt in config.prompts)`. -/
def prob_sum (ps : List PromptEntry) : ℚ :=
  (ps.map PromptEntry.probability).sum

/-- Python `validate_prompts(config)`: no list configured — or an empty list, since
Python's `if not config.prompts` is also true for `[]` — passes with the
single static prompt; a nonempty list passes iff its probability sum lies in
`[0.99, 1.01]`.  The code checks nothing else about the entries. -/
def validate_prompts (prompts : Option (List PromptEntry)) : Bool :=
  match prompts with
  | none => true
  | some [] => true
  | some ps => decide ((99 : ℚ)/100 ≤ prob_sum ps ∧ prob_sum ps ≤ 101/100)

/-- The cumulative-threshold walk of `choose_prompt`: return the text of the
first entry whose running probability sum (starting from `cumulative`)
reaches the draw `r`, or `none` when the walk falls off the end. -/
def chooseGo (r : ℚ) : List PromptEntry → ℚ → Option String
  | [], _ => none
  | e :: rest, cumulative =>
    if r ≤ cumulative + e.probability then some e.text
    else chooseGo r rest (cumulative + e.probability)

/-- Python `choose_prompt(config)` for a fixed uniform draw `r`: with no weighted
list configured (or an empty one) return the static prompt; otherwise walk
the list accumulating probabilities and return the first entry whose
cumulative sum reaches `r`, falling back to the first entry's text when no
entry does. -/
def choose_prompt (prompts : Option (List PromptEntry)) (staticPrompt : String)
    (r : ℚ) : String :=
  match prompts with
  | none => staticPrompt
  | some [] => staticPrompt
  | some ps =>
    match chooseGo r ps 0 with
    | some t => t
    | none => (ps.headD { text := "", probability := 0 }).text

/-- The cumulative probability sum through entry `i` (0-based). -/
def cumsum (ps : List PromptEntry) (i : Nat) : ℚ :=
  ((ps.take (i + 1)).map PromptEntry.probability).sum

theorem cumsum_cons_zero (e : PromptEntry) (l : List PromptEntry) :
    cumsum (e :: l) 0 = e.probability := by
  simp [cumsum]

theorem cumsum_cons_succ (e : PromptEntry) (l : List PromptEntry) (i : Nat) :
    cumsum (e :: l) (i + 1) = e.probability + cumsum l i := by
  simp [cumsum, List.take_succ_cons]

theorem chooseGo_mem (r : ℚ) :
    ∀ (ps : List PromptEntry) (c : ℚ) (t : String),
      chooseGo r ps c = some t → t ∈ ps.map PromptEntry.text := by
  intro ps
  induction ps with
  | nil => intro c t h; simp [chooseGo] at h
  | cons e rest ih =>
    intro c t h
    rw [chooseGo] at h
    by_cases hle : r ≤ c + e.probability
    · rw [if_pos hle] at h
      simp only [Option.some.injEq] at h
      simp [← h]
    · rw [if_neg hle] at h
      simp only [List.map_cons, List.mem_cons]
      exact Or.inr (ih (c + e.probability) t h)

theorem chooseGo_first (r : ℚ) :
    ∀ (ps : List PromptEntry) (c : ℚ) (i : Nat) (hi : i < ps.length),
      (∀ j, j < i → ¬ r ≤ c + cumsum ps j) →
      r ≤ c + cumsum ps i →
      chooseGo r ps c = some ((ps.get ⟨i, hi⟩).text) := by
  intro ps
  induction ps with
  | nil => intro c i hi; simp at hi
  | cons e rest ih =>
    intro c i hi hprev hcur
    cases i with
    | zero =>
      rw [cumsum_cons_zero] at hcur
      simp [chooseGo, hcur]
    | succ i =>
      have h0 := hprev 0 (Nat.succ_pos i)
      rw [cumsum_cons_zero] at h0
      rw [chooseGo, if_neg h0]
      have hi' : i < rest.length := by simpa using hi
      have h := ih (c + e.probability) i hi'
        (fun j hj => by
          have hp := hprev (j + 1) (by omega)
          rw [cumsum_cons_succ, ← add_assoc] at hp
          exact hp)
        (by rw [cumsum_cons_succ, ← add_assoc] at hcur; exact hcur)
      rw [h]
      rfl

theorem chooseGo_none (r : ℚ) :
    ∀ (ps : List PromptEntry) (c : ℚ),
      (∀ j, j < ps.length → ¬ r ≤ c + cumsum ps j) →
      chooseGo r ps c = none := by
  intro ps
  induction ps with
  | nil => intro c _; rfl
  | cons e rest ih =>
    intro c hall
    have h0 := hall 0 (Nat.succ_pos _)
    rw [cumsum_cons_zero] at h0
    rw [chooseGo, if_neg h0]
    exact ih (c + e.probability) (fun j hj => by
      have hp := hall (j + 1) (by simpa using hj)
      rw [cumsum_cons_succ, ← add_assoc] at hp
      exact hp)

/-- C5: for a weighted list whose probabilities sum to 1 ± 0.01 and a draw
`r ∈ [0, 1)`, `choose_prompt` returns a member of the list, namely the text
of the first entry whose cumulative probability sum reaches `r`; when no
entry reaches `r` it falls back to the first entry's text; and with no
weighted list configured it returns the static prompt.  (Reals are modelled
by exact rationals; the fallback branch is what absorbs any undershoot.) -/
theorem C5_choose_prompt_spec (ps : List PromptEntry) (sp : String) (r : ℚ)
    (hne : ps ≠ []) (hr0 : 0 ≤ r) (hr1 : r < 1)
    (hlo : (99 : ℚ)/100 ≤ prob_sum ps) (hhi : prob_sum ps ≤ 101/100) :
    (choose_prompt (some ps) sp r ∈ ps.map PromptEntry.text) ∧
    (∀ i, (hi : i < ps.length) → (∀ j, j < i → ¬ r ≤ cumsum ps j) →
      r ≤ cumsum ps i →
      choose_prompt (some ps) sp r = (ps.get ⟨i, hi⟩).text) ∧
    ((∀ j, j < ps.length → ¬ r ≤ cumsum ps j) →
      choose_prompt (some ps) sp r = (ps.headD { text := "", probability := 0 }).text) ∧
    (∀ sp2, choose_prompt none sp2 r = sp2) := by
  obtain ⟨e, rest, rfl⟩ : ∃ e rest, ps = e :: rest := by
    cases ps with
    | nil => exact absurd rfl hne
    | cons e rest => exact ⟨e, rest, rfl⟩
  refine ⟨?_, ?_, ?_, fun sp2 => rfl⟩
  · cases hgo : chooseGo r (e :: rest) 0 with
    | none => simp [choose_prompt, hgo]
    | some t =>
      have hmem := chooseGo_mem r (e :: rest) 0 t hgo
      simpa [choose_prompt, hgo] using hmem
  · intro i hi hprev hcur
    have h := chooseGo_first r (e :: rest) 0 i hi
      (fun j hj => by rw [zero_add]; exact hprev j hj)
      (by rw [zero_add]; exact hcur)
    simp [choose_prompt, h]
  · intro hall
    have h := chooseGo_none r (e :: rest) 0
      (fun j hj => by rw [zero_add]; exact hall j hj)
    simp [choose_prompt, h]

/-- The spec's worked example: weights 0.3 and 0.7. -/
def demoPrompts : List PromptEntry :=
  [{ text := "alpha", probability := 3/10 }, { text := "beta", probability := 7/10 }]

/-- Witness for C5 on weights [0.3, 0.7]: draw 0.5 selects the second
prompt and draw 0.2 selects the first. -/
theorem C5_choose_prompt_spec_witness :
    choose_prompt (some demoPrompts) "static" (1/2) = "beta" ∧
    choose_prompt (some demoPrompts) "static" (1/5) = "alpha" := by
  constructor
  · have h := (C5_choose_prompt_spec demoPrompts "static" (1/2) (by decide)
      (by norm_num) (by norm_num)
      (by norm_num [prob_sum, demoPrompts])
      (by norm_num [prob_sum, demoPrompts])).2.1 1 (by decide)
      (fun j hj => by
        interval_cases j
        norm_num [cumsum, demoPrompts])
      (by norm_num [cumsum, demoPrompts])
    rw [h]
    rfl
  · have h := (C5_choose_prompt_spec demoPrompts "static" (1/5) (by decide)
      (by norm_num) (by norm_num)
      (by norm_num [prob_sum, demoPrompts])
      (by norm_num [prob_sum, demoPrompts])).2.1 0 (by decide)
      (fun j hj => absurd hj (by omega))
      (by norm_num [cumsum, demoPrompts])
    rw [h]
    rfl

/-- A prompt list the code accepts although its only entry has empty text
and a second list entry carries a probability outside `[0, 1]`. -/
def badPrompts : List PromptEntry :=
  [{ text := "", probability := 3/2 }, { text := "x", probability := -(1/2) }]

/-- C6 counterexample: `validate_prompts` accepts `badPrompts` (its
probabilities sum to 1), although its first entry has empty text and both
probabilities lie outside `[0, 1]` — refuting the claim that acceptance
implies non-empty text and probabilities in `[0, 1]`. -/
theorem C6_counterexample_accepts_invalid_entries :
    ¬ (validate_prompts (some badPrompts) = true →
        ∀ e ∈ badPrompts, e.text ≠ "" ∧ 0 ≤ e.probability ∧ e.probability ≤ 1) := by
  intro h
  have hacc : validate_prompts (some badPrompts) = true := by
    norm_num [validate_prompts, prob_sum, badPrompts]
  have h1 := h hacc { text := "", probability := 3/2 } (by simp [badPrompts])
  exact h1.1 rfl

/-- C6 (amended): validation of a supplied nonempty weighted prompt list
requires (given the typed entry shape) exactly that the probability sum lie
within ±0.01 of 1.0 — empty texts and probabilities outside `[0, 1]` are not
rejected; in particular lists whose probabilities sum to 0.5 or to 1.5 fail
validation. -/
theorem C6_validate_prompts_spec (ps : List PromptEntry) (hne : ps ≠ []) :
    (validate_prompts (some ps) = true ↔
      (99 : ℚ)/100 ≤ prob_sum ps ∧ prob_sum ps ≤ 101/100) ∧
    (prob_sum ps = 1/2 → validate_prompts (some ps) = false) ∧
    (prob_sum ps = 3/2 → validate_prompts (some ps) = false) := by
  obtain ⟨e, rest, rfl⟩ : ∃ e rest, ps = e :: rest := by
    cases ps with
    | nil => exact absurd rfl hne
    | cons e rest => exact ⟨e, rest, rfl⟩
  refine ⟨by simp [validate_prompts], ?_, ?_⟩
  · intro h
    simp only [validate_prompts, h, decide_eq_false_iff_not]
    norm_num
  · intro h
    simp only [validate_prompts, h, decide_eq_false_iff_not]
    norm_num

/-- A list whose probabilities sum to 0.5. -/
def halfPrompts : List PromptEntry := [{ text := "a", probability := 1/2 }]

/-- Witness for C6: the sum-0.5 list fails validation. -/
theorem C6_validate_prompts_spec_witness :
    validate_prompts (some halfPrompts) = false :=
  (C6_validate_prompts_spec halfPrompts (by decide)).2.1
    (by norm_num [prob_sum, halfPrompts])

/-! ## Merge outcome classification (`merge_pr`) -/

/-- The parsed JSON body of a merge response, restricted to the fields
`merge_pr` reads. -/
structure MergeBody where
  merged : Option Bool := none
  message : Option String := none
  sha : Option String := none
deriving DecidableEq

/-- The classification `merge_pr` performs on the HTTP response (its
non-dry-run path), as the `(success, retryable, result)` triple it returns.
`body = none` models a response body that failed `json.loads` (the code
then works with the empty dict `{}`, here the all-`none` record). -/
def merge_pr_classify (status : Nat) (body : Option MergeBody) :
    Bool × Bool × String :=
  let b := body.getD {}
  if status = 200 ∧ b.merged = some true then (true, false, "merged")
  else if status = 405 ∨ status = 409 then (false, false, "conflict")
  else if is_transient_error status then (false, true, "retryable")
  else (false, false, "failed")

/-- A 200-class (2xx) HTTP status, as the claim reads "200-class status". -/
def is2xx (status : Nat) : Prop := 200 ≤ status ∧ status < 300

instance (status : Nat) : Decidable (is2xx status) :=
  inferInstanceAs (Decidable (200 ≤ status ∧ status < 300))

/-- C2 counterexample: status 201 with body `merged = true` is a 200-class
status carrying the merged acknowledgment, yet `merge_pr` classifies it as
the non-retryable failure `"failed"`: the code tests `status == 200`
exactly, not 200-class membership, so the claimed equivalence fails. -/
theorem C2_counterexample_status_201 :
    ¬ (((merge_pr_classify 201 (some { merged := some true })).1 = true) ↔
        (is2xx 201 ∧
          ((some { merged := some true } : Option MergeBody).getD {}).merged = some true)) := by
  decide

/-- C2 (amended): `merge_pr` reports success iff the status is exactly 200
and the parsed body carries `merged = true`; a 200 whose body lacks that
acknowledgment is classified as the non-retryable `"failed"`; statuses 405
and 409 give the distinct non-retryable `"conflict"`; the transient
statuses {0, 429, 500, 502, 503, 504} give a retryable failure; every other
failure gives the non-retryable `"failed"`. -/
theorem C2_merge_pr_classification (status : Nat) (body : Option MergeBody) :
    ((merge_pr_classify status body).1 = true ↔
      status = 200 ∧ (body.getD {}).merged = some true) ∧
    (status = 200 → (body.getD {}).merged ≠ some true →
      merge_pr_classify status body = (false, false, "failed")) ∧
    (status = 405 ∨ status = 409 →
      merge_pr_classify status body = (false, false, "conflict")) ∧
    (is_transient_error status = true →
      merge_pr_classify status body = (false, true, "retryable")) ∧
    (¬ (status = 200 ∧ (body.getD {}).merged = some true) →
      status ≠ 405 → status ≠ 409 → is_transient_error status = false →
      merge_pr_classify status body = (false, false, "failed")) := by
  refine ⟨?_, ?_, ?_, ?_, ?_⟩
  · by_cases h1 : status = 200 ∧ (body.getD {}).merged = some true
    · simp [merge_pr_classify, h1]
    · simp only [merge_pr_classify, if_neg h1]
      split_ifs <;> simp [h1]
  · intro h200 hnm
    have h1 : ¬ (status = 200 ∧ (body.getD {}).merged = some true) :=
      fun h => hnm h.2
    subst h200
    simp [merge_pr_classify, hnm, is_transient_error]
  · intro h45
    have h1 : ¬ (status = 200 ∧ (body.getD {}).merged = some true) := by
      rcases h45 with h | h <;> subst h <;> simp
    simp [merge_pr_classify, h1, h45]
  · intro htr
    have hne : status ≠ 200 ∧ status ≠ 405 ∧ status ≠ 409 := by
      simp only [is_transient_error, Bool.or_eq_true, beq_iff_eq] at htr
      rcases htr with ((((h | h) | h) | h) | h) | h <;> subst h <;>
        exact ⟨by decide, by decide, by decide⟩
    have h1 : ¬ (status = 200 ∧ (body.getD {}).merged = some true) :=
      fun h => hne.1 h.1
    simp [merge_pr_classify, h1, hne.2.1, hne.2.2, htr]
  · intro h1 h405 h409 htr
    simp [merge_pr_classify, h1, h405, h409, htr]

/-- Witness for C2 on concrete responses: 200 with `merged = true` is
success; 200 with `merged = false` is the non-retryable `"failed"`;
409 is `"conflict"`; 502 is retryable; 404 is `"failed"`. -/
theorem C2_merge_pr_classification_witness :
    (merge_pr_classify 200 (some { merged := some true })).1 = true ∧
    merge_pr_classify 200 (some { merged := some false }) = (false, false, "failed") ∧
    merge_pr_classify 409 none = (false, false, "conflict") ∧
    merge_pr_classify 502 none = (false, true, "retryable") ∧
    merge_pr_classify 404 none = (false, false, "failed") := by
  refine ⟨?_, ?_, ?_, ?_, ?_⟩
  · exact (C2_merge_pr_classification 200 (some { merged := some true })).1.mpr
      ⟨rfl, rfl⟩
  · exact (C2_merge_pr_classification 200 (some { merged := some false })).2.1
      rfl (by decide)
  · exact (C2_merge_pr_classification 409 none).2.2.1 (Or.inr rfl)
  · exact (C2_merge_pr_classification 502 none).2.2.2.1 (by decide)
  · exact (C2_merge_pr_classification 404 none).2.2.2.2
      (by decide) (by decide) (by decide) (by decide)

/-! ## Waiting for the change request (`wait_for_pr`) -/

/-- Python `str.split("/")` on a character list (an explicit implementation so
that the kernel can evaluate it). -/
def splitSlashAux : List Char → List Char → List String
  | [], acc => [String.mk acc.reverse]
  | ch :: rest, acc =>
    if ch = '/' then String.mk acc.reverse :: splitSlashAux rest []
    else splitSlashAux rest (ch :: acc)

/-- Python `pr_url.rstrip("/").split("/")[-1]`: the change-request number is the
last path segment of the URL after stripping trailing slashes. -/
def pr_number_of (url : String) : String :=
  let stripped := (url.toList.reverse.dropWhile (fun c => c = '/')).reverse
  (splitSlashAux stripped []).getLastD ""

/-- One observable action of the `wait_for_pr` phase, in order of
occurrence: the optional initial-delay sleep, a read of the
`SHUTDOWN_REQUESTED` flag, a `poll_session` request, an inter-poll sleep. -/
inductive WaitAction where
  | sleepInitial : Nat → WaitAction
  | check : WaitAction
  | poll : WaitAction
  | sleepInterval : Nat → WaitAction
deriving DecidableEq

/-- The outcome of `wait_for_pr`: the returned `(found, pr_url, pr_number)`
triple, the `current_agent` status written during the phase (if any), and
the trace of observable actions. -/
structure WaitResult where
  found : Bool
  pr_url : Option String
  pr_number : Option String
  statusWrite : Option String
  actions : List WaitAction
deriving DecidableEq

/-- The polling loop of `wait_for_pr`.  `shutdownAt k` is the value the
`k`-th loop-top check reads from `SHUTDOWN_REQUESTED` (the flag is set
asynchronously by the signal handler), `pollAt k` the change-request URL
found by the `k`-th `poll_session` call (if any), and `elapsedAfter k` the
elapsed wall-clock seconds observed after the `k`-th poll.  `fuel` bounds
the number of modelled iterations (the real loop is unbounded until the
timeout is observed). -/
def waitGo (interval timeout : Nat) (shutdownAt : Nat → Bool)
    (pollAt : Nat → Option String) (elapsedAfter : Nat → Nat) :
    Nat → Nat → WaitResult
  | _, 0 =>
    { found := false, pr_url := none, pr_number := none,
      statusWrite := none, actions := [] }
  | k, fuel + 1 =>
    if shutdownAt k then
      { found := false, pr_url := none, pr_number := none,
        statusWrite := none, actions := [WaitAction.check] }
    else
      match pollAt k with
      | some url =>
        { found := true, pr_url := some url, pr_number := some (pr_number_of url),
          statusWrite := some "pr_found",
          actions := [WaitAction.check, WaitAction.poll] }
      | none =>
        if timeout ≤ elapsedAfter k then
          { found := false, pr_url := none, pr_number := none,
            statusWrite := some "timeout",
            actions := [WaitAction.check, WaitAction.poll] }
        else
          let rest := waitGo interval timeout shutdownAt pollAt elapsedAfter (k + 1) fuel
          { rest with actions :=
              WaitAction.check :: WaitAction.poll ::
                WaitAction.sleepInterval interval :: rest.actions }

/-- Python `wait_for_pr`: the optional initial delay — slept unconditionally
whenever `poll_initial_delay_secs > 0` — followed by the polling loop. -/
def wait_for_pr_run (initialDelay interval timeout : Nat) (shutdownAt : Nat → Bool)
    (pollAt : Nat → Option String) (elapsedAfter : Nat → Nat) (fuel : Nat) :
    WaitResult :=
  let r := waitGo interval timeout shutdownAt pollAt elapsedAfter 0 fuel
  { r with actions :=
      (if 0 < initialDelay then [WaitAction.sleepInitial initialDelay] else [])
        ++ r.actions }

/-- Is the action a blocking wait (`time.sleep`)? -/
def WaitAction.isWait : WaitAction → Bool
  | .sleepInitial _ => true
  | .sleepInterval _ => true
  | _ => false

/-- Is the action a poll request? -/
def WaitAction.isPoll : WaitAction → Bool
  | .poll => true
  | _ => false

/-- Predicate `checkedBeforeEachGo p prev tr`: every action in `tr` satisfying `p` is
immediately preceded by a shutdown-flag check; `prev` is the action
immediately before the head of `tr` (if any). -/
def checkedBeforeEachGo (p : WaitAction → Bool) :
    Option WaitAction → List WaitAction → Bool
  | _, [] => true
  | prev, a :: rest =>
    (if p a then decide (prev = some WaitAction.check) else true) &&
      checkedBeforeEachGo p (some a) rest

/-- Every action in the trace satisfying `p` is immediately preceded by a
shutdown-flag check. -/
def checkedBeforeEach (p : WaitAction → Bool) (tr : List WaitAction) : Bool :=
  checkedBeforeEachGo p none tr

/-- C8 as stated: during the wait-for-change-request phase the shutdown
flag is checked before every wait — including the optional initial delay —
and before every poll request, and a shutdown observed at the first check
makes the phase return immediately with no result (and no status write). -/
def C8_claim_statement (initialDelay interval timeout : Nat)
    (shutdownAt : Nat → Bool) (pollAt : Nat → Option String)
    (elapsedAfter : Nat → Nat) (fuel : Nat) : Prop :=
  checkedBeforeEach (fun a => a.isWait || a.isPoll)
      (wait_for_pr_run initialDelay interval timeout shutdownAt pollAt
        elapsedAfter fuel).actions = true ∧
  (shutdownAt 0 = true →
    (wait_for_pr_run initialDelay interval timeout shutdownAt pollAt
      elapsedAfter fuel).found = false ∧
    (wait_for_pr_run initialDelay interval timeout shutdownAt pollAt
      elapsedAfter fuel).pr_url = none ∧
    (wait_for_pr_run initialDelay interval timeout shutdownAt pollAt
      elapsedAfter fuel).statusWrite = none)

/-- C8 counterexample: with a positive initial delay configured and
shutdown already requested on entry, the phase's first action is the
initial-delay sleep with no shutdown check before it — the flag is only
read afterwards, at the top of the polling loop — refuting the claim that
the flag is checked before every wait including the optional initial
delay. -/
theorem C8_counterexample_initial_delay_unchecked :
    ¬ C8_claim_statement 1 1 10 (fun _ => true) (fun _ => none) (fun _ => 0) 5 := by
  intro h
  exact absurd h.1 (by decide)

theorem waitGo_checked_before_poll (interval timeout : Nat)
    (shutdownAt : Nat → Bool) (pollAt : Nat → Option String)
    (elapsedAfter : Nat → Nat) :
    ∀ fuel k prev, checkedBeforeEachGo WaitAction.isPoll prev
      (waitGo interval timeout shutdownAt pollAt elapsedAfter k fuel).actions = true := by
  intro fuel
  induction fuel with
  | zero => intro k prev; rfl
  | succ fuel ih =>
    intro k prev
    rw [waitGo]
    by_cases hs : shutdownAt k
    · simp [hs, checkedBeforeEachGo, WaitAction.isPoll]
    · simp only [hs, Bool.false_eq_true, if_false]
      cases hp : pollAt k with
      | some url => simp [checkedBeforeEachGo, WaitAction.isPoll]
      | none =>
        by_cases ht : timeout ≤ elapsedAfter k
        · simp [ht, checkedBeforeEachGo, WaitAction.isPoll]
        · simp only [ht, if_false]
          simp [checkedBeforeEachGo, WaitAction.isPoll, ih]

/-- C8 (amended): during the wait phase the shutdown flag is checked at the
top of every polling iteration, immediately before every poll request; when
the first check observes the flag set, the phase returns immediately — no
result, no status write, and no action after that check.  The optional
initial delay, however, is slept unconditionally before the first check,
and an iteration's inter-poll wait is preceded by that iteration's check
and poll rather than by a fresh check of its own. -/
theorem C8_wait_for_pr_shutdown_checks (initialDelay interval timeout : Nat)
    (shutdownAt : Nat → Bool) (pollAt : Nat → Option String)
    (elapsedAfter : Nat → Nat) (fuel : Nat) :
    (checkedBeforeEach WaitAction.isPoll
      (wait_for_pr_run initialDelay interval timeout shutdownAt pollAt
        elapsedAfter fuel).actions = true) ∧
    (0 < fuel → shutdownAt 0 = true →
      wait_for_pr_run initialDelay interval timeout shutdownAt pollAt
          elapsedAfter fuel =
        { found := false, pr_url := none, pr_number := none, statusWrite := none,
          actions :=
            (if 0 < initialDelay then [WaitAction.sleepInitial initialDelay] else [])
              ++ [WaitAction.check] }) ∧
    (0 < initialDelay →
      (wait_for_pr_run initialDelay interval timeout shutdownAt pollAt
        elapsedAfter fuel).actions.head? =
          some (WaitAction.sleepInitial initialDelay)) := by
  refine ⟨?_, ?_, ?_⟩
  · by_cases hd : 0 < initialDelay
    · simp [wait_for_pr_run, hd, checkedBeforeEach, checkedBeforeEachGo,
        WaitAction.isPoll, waitGo_checked_before_poll]
    · simp [wait_for_pr_run, hd, checkedBeforeEach, waitGo_checked_before_poll]
  · intro hf h0
    obtain ⟨f, rfl⟩ : ∃ f, fuel = f + 1 := ⟨fuel - 1, by omega⟩
    rw [wait_for_pr_run, waitGo]
    simp [h0]
  · intro hd
    simp [wait_for_pr_run, hd]

/-- Witness for C8 (amended): with shutdown already requested, initial
delay 2 and three iterations of fuel, the phase performs only the initial
sleep and one check and returns no result. -/
theorem C8_wait_for_pr_shutdown_checks_witness :
    wait_for_pr_run 2 1 10 (fun _ => true) (fun _ => none) (fun _ => 0) 3 =
      { found := false, pr_url := none, pr_number := none, statusWrite := none,
        actions := [WaitAction.sleepInitial 2, WaitAction.check] } := by
  have h := (C8_wait_for_pr_shutdown_checks 2 1 10 (fun _ => true) (fun _ => none)
    (fun _ => 0) 3).2.1 (by decide) rfl
  rw [h]
  rfl

/-! ## Loop controller (`run_loop`)

The main `while True` loop, one `loop_step` per iteration.  Each
iteration's interactions with the outside world are collected in an
`IterEvents` record; the creation attempts and merge attempts go through
the same `retry_with_backoff` executor as in the source, with the merge
attempts classified by `merge_pr_classify`.  The `wait_for_pr` phase is
abstracted at the loop boundary to its returned outcome and its
`current_agent` status write (its internals are modelled by
`wait_for_pr_run` above). -/

/-- The configuration fields the main loop reads. -/
structure LoopConfig where
  retry_max : Nat
  retry_base_secs : Nat
  quota_daily_limit : Option Nat
  dry_run : Bool
deriving DecidableEq

/-- The local `max_consecutive_failures` of `run_loop`. -/
def max_consecutive_failures : Nat := 5

/-- The controller state at the top of an iteration: the persisted state,
the `LOOP_PAUSED` global, the local `consecutive_failures`, `quota_used`
and `iteration` variables, and whether the `while` loop has exited
(`done`, modelling `break`). -/
structure CtrlState where
  st : LoopState := {}
  loopPaused : Bool := false
  consecutive_failures : Nat := 0
  quota_used : Nat := 0
  iteration : Nat := 0
  done : Bool := false
deriving DecidableEq

/-- The external events one loop iteration can consume: the
`SHUTDOWN_REQUESTED` reading at the loop top; the per-attempt
`(ok, retryable, _)` outcomes of `create_session` inside the creation
retry executor; the session fields a successful creation writes into
`current_agent`; the outcome of `wait_for_pr` abstracted to whether it
aborted on shutdown, whether a change-request URL was found, and that URL;
and the per-attempt `(status, parsed body)` of the merge responses. -/
structure IterEvents where
  shutdown : Bool := false
  createOp : Nat → Bool × Bool × String := fun _ => (false, false, "failed")
  agentId : String := ""
  agentName : String := ""
  agentPrompt : String := ""
  agentStart : String := ""
  waitShutdown : Bool := false
  waitFound : Bool := false
  waitPrUrl : String := ""
  mergeResp : Nat → Nat × Option MergeBody := fun _ => (0, none)

/-- The `create_op` closure of `run_loop`: wraps `create_session`, mapping
its outcome to the label `"created"`/`"failed"` (the label is discarded by
the loop). -/
def create_op (ev : IterEvents) : Nat → Bool × Bool × String :=
  fun k =>
    ((ev.createOp k).1, (ev.createOp k).2.1,
      if (ev.createOp k).1 then "created" else "failed")

/-- The `merge_op` closure of `run_loop`: `merge_pr` per attempt.  Dry-run
short-circuits to success with `"merged"`; otherwise the `k`-th attempt's
response is classified by `merge_pr_classify`. -/
def merge_op (cfg : LoopConfig) (ev : IterEvents) : Nat → Bool × Bool × String :=
  fun k =>
    if cfg.dry_run then (true, false, "merged")
    else merge_pr_classify (ev.mergeResp k).1 (ev.mergeResp k).2

/-- Python `pause_loop(state, reason)`: set the persisted `paused` flag, then the
`pause_reason`, then mark the current agent `paused` when one is stored
(Python's `if state.get("current_agent")` — an agent dict written by this
program is always nonempty, so presence is `isSome` here).  The
`LOOP_PAUSED` global lives at the controller level (`pause_ctrl`). -/
def pause_loop (s : LoopState) (reason : String) : LoopState :=
  let s1 := { s with paused := true }
  let s2 := { s1 with pause_reason := reason }
  if s2.current_agent.isSome then
    update_current_agent s2 { status := some "paused" }
  else s2

/-- Python `pause_loop` together with its `LOOP_PAUSED = True` global effect. -/
def pause_ctrl (c : CtrlState) (reason : String) : CtrlState :=
  { c with loopPaused := true, st := pause_loop c.st reason }

/-- The body of one `run_loop` iteration after the shutdown/pause/quota
gates: creation through the retry executor (with `current_agent` written by
the successful attempt), quota increment, the session-identifier check, the
wait phase, and the merge through the retry executor, with the
consecutive-failures bookkeeping and the pauses of the source. -/
def loop_iter (cfg : LoopConfig) (c : CtrlState) (ev : IterEvents) : CtrlState :=
  let created :=
    (retry_with_backoff (create_op ev) cfg.retry_max cfg.retry_base_secs).success
  if created = false then
    let c1 := { c with consecutive_failures := c.consecutive_failures + 1,
                       st := update_current_agent c.st { status := some "failed" } }
    if max_consecutive_failures ≤ c1.consecutive_failures then
      { pause_ctrl c1 ("Too many consecutive session creation failures (" ++
          toString c1.consecutive_failures ++ ")") with done := true }
    else c1
  else
    let agentInit : AgentUpdate :=
      { id := some ev.agentId, name := some ev.agentName,
        prompt := some ev.agentPrompt, status := some "running",
        start_time := some ev.agentStart, retry_count := some 0 }
    let c1 := { c with st := update_current_agent c.st agentInit }
    let q := increment_quota c1.st c1.quota_used cfg.quota_daily_limit
    let c2 := { c1 with quota_used := q.1, st := q.2 }
    let session_name := (c2.st.current_agent.getD {}).name
    let session_id := (c2.st.current_agent.getD {}).id
    if session_name = "" ∨ session_id = "" then
      { pause_ctrl c2 "Missing session identifiers" with done := true }
    else
      let c3 :=
        if ev.waitShutdown then c2
        else if ev.waitFound then
          { c2 with st := update_current_agent c2.st { status := some "pr_found" } }
        else
          { c2 with st := update_current_agent c2.st { status := some "timeout" } }
      let found : Bool := !ev.waitShutdown && ev.waitFound
      let pr_url := ev.waitPrUrl
      let pr_number := if found then pr_number_of ev.waitPrUrl else ""
      if found = false ∨ pr_number = "" then
        let c4 := { c3 with consecutive_failures := c3.consecutive_failures + 1 }
        if max_consecutive_failures ≤ c4.consecutive_failures then
          { pause_ctrl c4 ("Too many consecutive failures (" ++
              toString c4.consecutive_failures ++ ")") with done := true }
        else c4
      else
        let mr := retry_with_backoff (merge_op cfg ev) cfg.retry_max cfg.retry_base_secs
        if mr.success = false then
          let c5 := { c3 with consecutive_failures := c3.consecutive_failures + 1 }
          if mr.result = "conflict" then
            { pause_ctrl c5 ("Merge conflict on PR #" ++ pr_number ++
                " (" ++ pr_url ++ ")") with done := true }
          else if max_consecutive_failures ≤ c5.consecutive_failures then
            { pause_ctrl c5 ("Too many consecutive merge failures (" ++
                toString c5.consecutive_failures ++ ")") with done := true }
          else c5
        else
          { c3 with st := update_current_agent c3.st { status := some "merged" },
                    consecutive_failures := 0 }

/-- One full pass of the `while True` body of `run_loop`, including the
exit gates.  A finished controller (`done = true`, i.e. the loop has hit
`break`) consumes no further events. -/
def loop_step (cfg : LoopConfig) (c : CtrlState) (ev : IterEvents) : CtrlState :=
  if c.done then c
  else if ev.shutdown then { c with done := true }
  else if c.loopPaused then { c with done := true }
  else if check_quota c.quota_used cfg.quota_daily_limit = false then
    { pause_ctrl c "Daily quota limit reached" with done := true }
  else
    loop_iter cfg { c with iteration := c.iteration + 1 } ev

/-- The `run_loop` iteration sequence over a list of per-iteration events. -/
def run_loop_steps (cfg : LoopConfig) : CtrlState → List IterEvents → CtrlState
  | c, [] => c
  | c, ev :: rest => run_loop_steps cfg (loop_step cfg c ev) rest

theorem loop_step_of_done (cfg : LoopConfig) (c : CtrlState) (ev : IterEvents)
    (h : c.done = true) : loop_step cfg c ev = c := by
  simp [loop_step, h]

theorem run_loop_steps_done (cfg : LoopConfig) (c : CtrlState)
    (h : c.done = true) : ∀ evs, run_loop_steps cfg c evs = c := by
  intro evs
  induction evs with
  | nil => rfl
  | cons ev rest ih =>
    show run_loop_steps cfg (loop_step cfg c ev) rest = c
    rw [loop_step_of_done cfg c ev h]
    exact ih

theorem update_current_agent_paused (s : LoopState) (u : AgentUpdate) :
    (update_current_agent s u).paused = s.paused := rfl

theorem update_current_agent_pause_reason (s : LoopState) (u : AgentUpdate) :
    (update_current_agent s u).pause_reason = s.pause_reason := rfl

theorem pause_loop_paused (s : LoopState) (r : String) :
    (pause_loop s r).paused = true := by
  rw [pause_loop]
  split_ifs <;> rfl

theorem pause_loop_pause_reason (s : LoopState) (r : String) :
    (pause_loop s r).pause_reason = r := by
  rw [pause_loop]
  split_ifs <;> rfl

theorem increment_quota_current_agent (s : LoopState) (q : Nat) (l : Option Nat) :
    (increment_quota s q l).2.current_agent = s.current_agent := by
  cases l <;> rfl

theorem loop_step_create_fail_proj (cfg : LoopConfig) (c : CtrlState) (ev : IterEvents)
    (hdone : c.done = false) (hsd : ev.shutdown = false) (hlp : c.loopPaused = false)
    (hq : check_quota c.quota_used cfg.quota_daily_limit = true)
    (hc : (retry_with_backoff (create_op ev) cfg.retry_max cfg.retry_base_secs).success = false)
    (hcf : c.consecutive_failures + 1 < max_consecutive_failures) :
    (loop_step cfg c ev).done = false ∧
    (loop_step cfg c ev).loopPaused = c.loopPaused ∧
    (loop_step cfg c ev).quota_used = c.quota_used ∧
    (loop_step cfg c ev).consecutive_failures = c.consecutive_failures + 1 := by
  have hnot : ¬ (max_consecutive_failures ≤ c.consecutive_failures + 1) := by omega
  simp [loop_step, loop_iter, hdone, hsd, hlp, hq, hc, hnot]

theorem loop_step_create_fail_pause (cfg : LoopConfig) (c : CtrlState) (ev : IterEvents)
    (hdone : c.done = false) (hsd : ev.shutdown = false) (hlp : c.loopPaused = false)
    (hq : check_quota c.quota_used cfg.quota_daily_limit = true)
    (hc : (retry_with_backoff (create_op ev) cfg.retry_max cfg.retry_base_secs).success = false)
    (hcf : max_consecutive_failures ≤ c.consecutive_failures + 1) :
    (loop_step cfg c ev).done = true ∧
    (loop_step cfg c ev).st.paused = true ∧
    (loop_step cfg c ev).st.pause_reason =
      "Too many consecutive session creation failures (" ++
        toString (c.consecutive_failures + 1) ++ ")" := by
  simp [loop_step, loop_iter, hdone, hsd, hlp, hq, hc, hcf,
    pause_ctrl, pause_loop_paused, pause_loop_pause_reason]

theorem loop_step_merge_success_proj (cfg : LoopConfig) (c : CtrlState) (ev : IterEvents)
    (hdone : c.done = false) (hsd : ev.shutdown = false) (hlp : c.loopPaused = false)
    (hq : check_quota c.quota_used cfg.quota_daily_limit = true)
    (hcr : (retry_with_backoff (create_op ev) cfg.retry_max cfg.retry_base_secs).success = true)
    (hname : ev.agentName ≠ "") (hid : ev.agentId ≠ "")
    (hws : ev.waitShutdown = false) (hwf : ev.waitFound = true)
    (hpn : pr_number_of ev.waitPrUrl ≠ "")
    (hm : (retry_with_backoff (merge_op cfg ev) cfg.retry_max cfg.retry_base_secs).success = true) :
    (loop_step cfg c ev).consecutive_failures = 0 ∧
    (loop_step cfg c ev).done = false ∧
    ((loop_step cfg c ev).st.current_agent.getD {}).status = "merged" := by
  simp [loop_step, loop_iter, hdone, hsd, hlp, hq, hcr, hname, hid, hws, hwf, hpn, hm,
    update_current_agent, Agent.applyUpdate, increment_quota_current_agent]

/-- C3: starting from a live controller (loop not exited, `LOOP_PAUSED`
unset, quota available) with the consecutive-failure counter at 0, five
consecutive session-creation failures with no success in between drive the
persisted state to `paused = true` with a `pause_reason` naming the failure
count (5), and the loop exits and issues no further iterations (every later
event leaves the controller untouched); moreover any fully successful
merged iteration resets the consecutive-failure counter to zero. -/
theorem C3_five_creation_failures_pause (cfg : LoopConfig) (c : CtrlState)
    (e1 e2 e3 e4 e5 : IterEvents)
    (hdone : c.done = false) (hlp : c.loopPaused = false)
    (hcf0 : c.consecutive_failures = 0)
    (hq : check_quota c.quota_used cfg.quota_daily_limit = true)
    (hfail : ∀ ev ∈ [e1, e2, e3, e4, e5], ev.shutdown = false ∧
      (retry_with_backoff (create_op ev) cfg.retry_max cfg.retry_base_secs).success = false) :
    ((run_loop_steps cfg c [e1, e2, e3, e4, e5]).st.paused = true) ∧
    ((run_loop_steps cfg c [e1, e2, e3, e4, e5]).st.pause_reason =
      "Too many consecutive session creation failures (5)") ∧
    ((run_loop_steps cfg c [e1, e2, e3, e4, e5]).done = true) ∧
    (∀ evs, run_loop_steps cfg (run_loop_steps cfg c [e1, e2, e3, e4, e5]) evs =
      run_loop_steps cfg c [e1, e2, e3, e4, e5]) ∧
    (∀ (c2 : CtrlState) (ev : IterEvents),
      c2.done = false → ev.shutdown = false → c2.loopPaused = false →
      check_quota c2.quota_used cfg.quota_daily_limit = true →
      (retry_with_backoff (create_op ev) cfg.retry_max cfg.retry_base_secs).success = true →
      ev.agentName ≠ "" → ev.agentId ≠ "" →
      ev.waitShutdown = false → ev.waitFound = true →
      pr_number_of ev.waitPrUrl ≠ "" →
      (retry_with_backoff (merge_op cfg ev) cfg.retry_max cfg.retry_base_secs).success = true →
      (loop_step cfg c2 ev).consecutive_failures = 0) := by
  have f1 := hfail e1 (by simp)
  have f2 := hfail e2 (by simp)
  have f3 := hfail e3 (by simp)
  have f4 := hfail e4 (by simp)
  have f5 := hfail e5 (by simp)
  have p1 := loop_step_create_fail_proj cfg c e1 hdone f1.1 hlp hq f1.2
    (by rw [hcf0]; decide)
  have p2 := loop_step_create_fail_proj cfg (loop_step cfg c e1) e2
    p1.1 f2.1 (p1.2.1.trans hlp)
    (by rw [p1.2.2.1]; exact hq) f2.2
    (by rw [p1.2.2.2, hcf0]; decide)
  have p3 := loop_step_create_fail_proj cfg
    (loop_step cfg (loop_step cfg c e1) e2) e3
    p2.1 f3.1 ((p2.2.1.trans p1.2.1).trans hlp)
    (by rw [p2.2.2.1, p1.2.2.1]; exact hq) f3.2
    (by rw [p2.2.2.2, p1.2.2.2, hcf0]; decide)
  have p4 := loop_step_create_fail_proj cfg
    (loop_step cfg (loop_step cfg (loop_step cfg c e1) e2) e3) e4
    p3.1 f4.1 (((p3.2.1.trans p2.2.1).trans p1.2.1).trans hlp)
    (by rw [p3.2.2.1, p2.2.2.1, p1.2.2.1]; exact hq) f4.2
    (by rw [p3.2.2.2, p2.2.2.2, p1.2.2.2, hcf0]; decide)
  have p5 := loop_step_create_fail_pause cfg
    (loop_step cfg (loop_step cfg (loop_step cfg (loop_step cfg c e1) e2) e3) e4) e5
    p4.1 f5.1 ((((p4.2.1.trans p3.2.1).trans p2.2.1).trans p1.2.1).trans hlp)
    (by rw [p4.2.2.1, p3.2.2.1, p2.2.2.1, p1.2.2.1]; exact hq) f5.2
    (by rw [p4.2.2.2, p3.2.2.2, p2.2.2.2, p1.2.2.2, hcf0]; decide)
  have hrun : run_loop_steps cfg c [e1, e2, e3, e4, e5] =
      loop_step cfg (loop_step cfg (loop_step cfg (loop_step cfg
        (loop_step cfg c e1) e2) e3) e4) e5 := rfl
  refine ⟨?_, ?_, ?_, ?_, ?_⟩
  · rw [hrun]; exact p5.2.1
  · rw [hrun, p5.2.2, p4.2.2.2, p3.2.2.2, p2.2.2.2, p1.2.2.2, hcf0]
    decide
  · rw [hrun]; exact p5.1
  · intro evs; rw [hrun]; exact run_loop_steps_done cfg _ p5.1 evs
  · intro c2 ev h1 h2 h3 h4 h5 h6 h7 h8 h9 h10 h11
    exact (loop_step_merge_success_proj cfg c2 ev h1 h2 h3 h4 h5 h6 h7 h8 h9 h10 h11).1

/-- A configuration for exercising the loop lemmas: one creation attempt,
no quota limit, no dry-run. -/
def demoCfg : LoopConfig :=
  { retry_max := 1, retry_base_secs := 5, quota_daily_limit := none, dry_run := false }

/-- An iteration whose session creation fails non-retryably (the event
defaults: no shutdown, creation attempts all fail). -/
def failEv : IterEvents := {}

/-- Witness for C3: five failed-creation iterations from a fresh controller
pause the loop with the five-strikes reason. -/
theorem C3_five_creation_failures_pause_witness :
    (run_loop_steps demoCfg {} [failEv, failEv, failEv, failEv, failEv]).st.paused = true ∧
    (run_loop_steps demoCfg {} [failEv, failEv, failEv, failEv, failEv]).st.pause_reason =
      "Too many consecutive session creation failures (5)" ∧
    (run_loop_steps demoCfg {} [failEv, failEv, failEv, failEv, failEv]).done = true := by
  have h := C3_five_creation_failures_pause demoCfg {} failEv failEv failEv failEv failEv
    rfl rfl rfl rfl
    (by
      intro ev hev
      have he : ev = failEv := by simpa using hev
      subst he
      exact ⟨rfl, by decide⟩)
  exact ⟨h.1, h.2.1, h.2.2.1⟩

/-- Helper: statuses 405 and 409 classify as the non-retryable conflict. -/
theorem merge_pr_classify_conflict (status : Nat) (body : Option MergeBody)
    (h : status = 405 ∨ status = 409) :
    merge_pr_classify status body = (false, false, "conflict") := by
  have h1 : ¬ (status = 200 ∧ (body.getD {}).merged = some true) := by
    rcases h with h | h <;> subst h <;> simp
  simp [merge_pr_classify, h1, h]

/-- Helper: a first-attempt non-retryable failure stops the executor after
one invocation with no sleep. -/
theorem retry_with_backoff_nonretryable (op : Nat → Bool × Bool × String)
    (m b : Nat) (hf : (op 0).1 = false) (hr : (op 0).2.1 = false) :
    retry_with_backoff op m b =
      { success := false, result := (op 0).2.2, delays := [], invocations := 1 } := by
  rw [retry_with_backoff, retryGo.eq_def]
  cases h : m - 1 <;> simp [hf, hr, h]

/-- C4: a merge response with status 405 or 409 on the first merge attempt
is classified `conflict`, which the classifier marks non-retryable, so the
retry executor stops after a single invocation (the conflict is never
retried); the iteration then pauses the loop immediately — for every value
of the consecutive-failure counter, in particular 0 — with the
merge-conflict pause reason rather than the generic five-strikes reason,
and the loop exits. -/
theorem C4_merge_conflict_pauses_immediately (cfg : LoopConfig) (c : CtrlState)
    (ev : IterEvents)
    (hdone : c.done = false) (hsd : ev.shutdown = false) (hlp : c.loopPaused = false)
    (hq : check_quota c.quota_used cfg.quota_daily_limit = true)
    (hdry : cfg.dry_run = false)
    (hcr : (retry_with_backoff (create_op ev) cfg.retry_max cfg.retry_base_secs).success = true)
    (hname : ev.agentName ≠ "") (hid : ev.agentId ≠ "")
    (hws : ev.waitShutdown = false) (hwf : ev.waitFound = true)
    (hpn : pr_number_of ev.waitPrUrl ≠ "")
    (hconf : (ev.mergeResp 0).1 = 405 ∨ (ev.mergeResp 0).1 = 409) :
    (loop_step cfg c ev).done = true ∧
    (loop_step cfg c ev).st.paused = true ∧
    (loop_step cfg c ev).st.pause_reason =
      "Merge conflict on PR #" ++ pr_number_of ev.waitPrUrl ++
        " (" ++ ev.waitPrUrl ++ ")" ∧
    (retry_with_backoff (merge_op cfg ev) cfg.retry_max cfg.retry_base_secs).invocations = 1 ∧
    (retry_with_backoff (merge_op cfg ev) cfg.retry_max cfg.retry_base_secs).result = "conflict" := by
  have hop : merge_op cfg ev 0 = (false, false, "conflict") := by
    simp only [merge_op, hdry, Bool.false_eq_true, if_false]
    exact merge_pr_classify_conflict _ _ hconf
  have hmr := retry_with_backoff_nonretryable (merge_op cfg ev)
    cfg.retry_max cfg.retry_base_secs (by rw [hop]) (by rw [hop])
  rw [hop] at hmr
  refine ⟨?_, ?_, ?_, by rw [hmr], by rw [hmr]⟩ <;>
    simp [loop_step, loop_iter, hdone, hsd, hlp, hq, hcr, hname, hid, hws, hwf, hpn,
      hmr, update_current_agent, Agent.applyUpdate, increment_quota_current_agent,
      pause_ctrl, pause_loop_paused, pause_loop_pause_reason]

/-- An iteration that creates a session, finds a change request and then
hits a 409 on the merge. -/
def conflictEv : IterEvents :=
  { createOp := fun _ => (true, false, "created"),
    agentId := "a1", agentName := "sessions/a1", agentPrompt := "p",
    agentStart := "2026-10-12T00:00:00Z", waitFound := true,
    waitPrUrl := "https://github.com/o/r/pull/999",
    mergeResp := fun _ => (409, none) }

/-- Witness for C4: from a fresh controller (counter 0), one 409 merge
pauses the loop with the conflict reason after a single merge invocation. -/
theorem C4_merge_conflict_pauses_immediately_witness :
    (loop_step demoCfg {} conflictEv).st.paused = true ∧
    (loop_step demoCfg {} conflictEv).st.pause_reason =
      "Merge conflict on PR #999 (https://github.com/o/r/pull/999)" ∧
    (retry_with_backoff (merge_op demoCfg conflictEv)
      demoCfg.retry_max demoCfg.retry_base_secs).invocations = 1 := by
  have h := C4_merge_conflict_pauses_immediately demoCfg {} conflictEv
    rfl rfl rfl rfl rfl (by decide) (by decide) (by decide) rfl rfl (by decide)
    (Or.inr rfl)
  refine ⟨h.2.1, ?_, h.2.2.2.1⟩
  rw [h.2.2.1]
  decide

end JulesLoop
